import Mathlib

/-!
Shallow embedding of the jb-repo-indexer synchronization engine.

The embedding follows the Rust sources:
- src/jb-repo-indexer/src/db/mod.rs and db/models.rs (the SQL store),
- src/jb-repo-indexer/src/meta/sync.rs (the reconciliation tasks),
- src/jb-repo-indexer/src/api/mod.rs (the repository HTTP client),
- src/jb-repo-indexer/src/main.rs and args.rs (CLI driver).

Tables are embedded as lists of row structures; each store operation is the
Lean function implementing the semantics of the SQL statement executed by the
Rust method (SQLite semantics: affected-row counts, INSERT OR IGNORE,
ON CONFLICT DO UPDATE, PRIMARY KEY uniqueness errors, DELETE ... WHERE).
HTTP interactions are parameters of the embedded functions: each network
response the code can observe is an explicit argument, and the functions
return the same results and perform the same writes the Rust code does.
-/

namespace JbRepoIndexer

/-- Row of the plugins table (db/models.rs, CachedPlugin). -/
structure CachedPlugin where
  xml_id : String
  numeric_id : Nat
deriving DecidableEq, Repr

/-- Row of the versions table (db/models.rs, CachedPluginVersion). -/
structure CachedPluginVersion where
  version : String
  update_id : Nat
  channel : String
  plugin_xml_id : String
deriving DecidableEq, Repr

/-- Row of the update_dependencies table (db/models.rs, CachedUpdateDependency). -/
structure CachedUpdateDependency where
  update_id : Nat
  dependency_xml_id : String
  optional : Bool
deriving DecidableEq, Repr

/-- Row of the updates table (db/models.rs, CachedUpdate). Hash bytes are a
list of naturals standing for the raw byte blob. -/
structure CachedUpdate where
  id : Nat
  stale : Bool
  etag : Option String
  file_name : Option String
  download_url : Option String
  hash_algorithm : Option String
  hash : Option (List Nat)
deriving DecidableEq, Repr

/-- Errors surfaced by the store. A plain INSERT that hits an existing
primary key makes SQLite raise SQLITE_CONSTRAINT, which libsql surfaces as an
error to the caller (IndexerError::DatabaseError). -/
inductive DbError where
  | uniqueConstraintViolation
deriving DecidableEq, Repr

/-- Database::add_plugin (db/mod.rs lines 166-177):
INSERT INTO plugins (xml_id, numeric_id) VALUES (?1, ?2) -- a plain INSERT,
with no OR IGNORE and no ON CONFLICT clause, against PRIMARY KEY xml_id. -/
def add_plugin (plugins : List CachedPlugin) (p : CachedPlugin) :
    Except DbError (List CachedPlugin) :=
  if plugins.any (fun r => r.xml_id == p.xml_id) then
    Except.error DbError.uniqueConstraintViolation
  else
    Except.ok (plugins ++ [p])

/-- The row INSERT OR IGNORE INTO updates (id) VALUES (?1) creates when the
id is free: the column defaults of the schema (db/mod.rs lines 89-103) are
stale TRUE and NULL for every other column. -/
def fresh_update_row (uid : Nat) : CachedUpdate :=
  { id := uid, stale := true, etag := none, file_name := none,
    download_url := none, hash_algorithm := none, hash := none }

/-- Database::add_update (db/mod.rs lines 179-190):
INSERT OR IGNORE INTO updates (id) VALUES (?1). -/
def add_update (updates : List CachedUpdate) (uid : Nat) : List CachedUpdate :=
  if updates.any (fun r => r.id == uid) then updates
  else updates ++ [fresh_update_row uid]

/-- Database::add_plugin_version (db/mod.rs lines 192-217):
INSERT INTO versions ... ON CONFLICT DO UPDATE SET update_id = ?2,
channel = ?3, with PRIMARY KEY (version, plugin_xml_id). -/
def add_plugin_version (versions : List CachedPluginVersion)
    (v : CachedPluginVersion) : List CachedPluginVersion :=
  if versions.any (fun r => r.version == v.version && r.plugin_xml_id == v.plugin_xml_id) then
    versions.map (fun r =>
      if r.version == v.version && r.plugin_xml_id == v.plugin_xml_id then
        { r with update_id := v.update_id, channel := v.channel }
      else r)
  else
    versions ++ [v]

/-- Database::remove_plugin_version (db/mod.rs lines 241-255):
DELETE FROM versions WHERE plugin_xml_id = ?1 AND version = ?2. -/
def remove_plugin_version (versions : List CachedPluginVersion)
    (plugin_xml_id version : String) : List CachedPluginVersion :=
  versions.filter (fun r => !(r.plugin_xml_id == plugin_xml_id && r.version == version))

/-- Database::add_update_dependency (db/mod.rs lines 257-271):
INSERT INTO update_dependencies ... ON CONFLICT DO UPDATE SET
dependency_xml_id = ?2, optional = ?3, with PRIMARY KEY
(update_id, dependency_xml_id). -/
def add_update_dependency (deps : List CachedUpdateDependency)
    (d : CachedUpdateDependency) : List CachedUpdateDependency :=
  if deps.any (fun r => r.update_id == d.update_id && r.dependency_xml_id == d.dependency_xml_id) then
    deps.map (fun r =>
      if r.update_id == d.update_id && r.dependency_xml_id == d.dependency_xml_id then
        { r with optional := d.optional }
      else r)
  else
    deps ++ [d]

/-- Database::mark_all_updates_stale (db/mod.rs lines 273-279):
UPDATE updates SET stale = TRUE. -/
def mark_all_updates_stale (updates : List CachedUpdate) : List CachedUpdate :=
  updates.map (fun r => { r with stale := true })

/-- Database::mark_update_not_stale (db/mod.rs lines 281-293):
UPDATE updates SET stale = FALSE WHERE id = ?1, returning affected greater
than zero. There is no stale = TRUE condition in the WHERE clause, and
SQLite's changed-row count includes every row matched by the WHERE clause,
also when the assigned value equals the stored value. The boolean is
therefore true exactly when a row with this id exists. -/
def mark_update_not_stale (updates : List CachedUpdate) (uid : Nat) :
    List CachedUpdate × Bool :=
  (updates.map (fun r => if r.id == uid then { r with stale := false } else r),
   updates.countP (fun r => r.id == uid) > 0)

/-- Database::get_update (db/mod.rs lines 295-308):
SELECT ... FROM updates WHERE id = ?1, first row or a NotFound error. -/
def get_update (updates : List CachedUpdate) (uid : Nat) : Option CachedUpdate :=
  updates.find? (fun r => r.id == uid)

/-- Database::change_update_info (db/mod.rs lines 310-326):
UPDATE updates SET stale = ?1, etag = ?2, file_name = ?3, download_url = ?4,
hash_algorithm = ?5, hash = ?6 WHERE id = ?7 -- every matched row takes all
fields of the given update (whose id equals the matched id). -/
def change_update_info (updates : List CachedUpdate) (u : CachedUpdate) :
    List CachedUpdate :=
  updates.map (fun r => if r.id == u.id then u else r)

/-- Command line arguments (args.rs). NonZeroUsize budgets are embedded as
naturals; the paths as strings. -/
structure IndexerArgs where
  database : String
  max_parallel_small_requests : Nat
  max_parallel_large_requests : Nat
  output_directory : String
  no_sync : Bool
  no_generate : Bool
deriving DecidableEq, Repr

/-- The observable top-level steps of async_main (main.rs lines 44-73). -/
inductive MainAction where
  | setupProcessor
  | syncPluginMetadata
  | reportStatistics
deriving DecidableEq, Repr

/-- async_main (main.rs lines 44-73): it builds the MetadataProcessor, calls
sync_plugin_metadata, and reports statistics. The function body contains no
branch on any field of args -- in particular args.no_sync and
args.no_generate are never read anywhere in the crate outside args.rs. -/
def async_main_actions (_args : IndexerArgs) : List MainAction :=
  [MainAction.setupProcessor, MainAction.syncPluginMetadata,
   MainAction.reportStatistics]

/-- One entry of the remote version listing (api/models.rs, RepoUpdateVersion). -/
structure RepoUpdateVersion where
  id : Nat
  version : String
  channel : String
deriving DecidableEq, Repr

/-- Resolved download info (api/models.rs, RepoDownloadInfo). The URL is
embedded as a string. -/
structure RepoDownloadInfo where
  url : String
  etag : Option String
  file_name : Option String
deriving DecidableEq, Repr

/-- Hash result (api/models.rs, RepoDownloadHash). -/
structure RepoDownloadHash where
  algorithm : String
  value : List Nat
deriving DecidableEq, Repr

/-- Update metadata (api/models.rs, RepoUpdateMetadata). -/
structure RepoUpdateMetadata where
  dependencies : List String
  optional_dependencies : List String
deriving DecidableEq, Repr

/-- Errors surfaced by the API client (error.rs variants reachable from
hash_download_url). -/
inductive ApiError where
  | httpTransport
  | httpStatus
  | jsonParse
  | badBase64
deriving DecidableEq, Repr

/-- What the code can observe of the GET of url.hash.json inside
hash_download_url (api/mod.rs lines 190-191 and 227-232): the send can fail;
otherwise a status arrives together with the outcome of reading and parsing
the body, which is only inspected on the non-fallback branch. -/
inductive BodyParse where
  | jsonError
  | base64Error
  | parsed (algorithm : String) (bytes : List Nat)
deriving DecidableEq, Repr

/-- Outcome of the hash-JSON probe request. The body component models the
chain response.bytes (read error possible) followed by serde_json parsing
and base64 decoding of the hash field. -/
inductive ProbeOutcome where
  | sendError
  | got (status : Nat) (body : Except Unit BodyParse)
deriving Repr

/-- Outcome of the streaming fallback GET of the artifact itself
(api/mod.rs lines 215-218): the send can fail; otherwise a status arrives
together with the outcome of reading the chunks. -/
inductive StreamOutcome where
  | sendError
  | got (status : Nat) (chunks : Except Unit (List Nat))
deriving Repr

/-- JetbrainsRepoApi::hash_download_url (api/mod.rs lines 178-241), with the
sha2 crate's SHA-256 abstracted as the function argument sha256 and the two
network interactions as explicit outcomes. The fallback branch is taken
exactly on probe status 404, 400 or 403 (the matches! at lines 193-196); on
that branch the artifact GET goes through error_for_status (an error for any
status of at least 400) and the streamed bytes are hashed locally. On every
other probe status the body is parsed as hash JSON; the status itself is
never checked on that branch. -/
def hash_download_url (sha256 : List Nat → List Nat) (probe : ProbeOutcome)
    (stream : StreamOutcome) : Except ApiError RepoDownloadHash :=
  match probe with
  | ProbeOutcome.sendError => Except.error ApiError.httpTransport
  | ProbeOutcome.got status body =>
    if status == 404 || status == 400 || status == 403 then
      match stream with
      | StreamOutcome.sendError => Except.error ApiError.httpTransport
      | StreamOutcome.got s chunks =>
        if 400 ≤ s then Except.error ApiError.httpStatus
        else
          match chunks with
          | Except.error _ => Except.error ApiError.httpTransport
          | Except.ok bytes =>
            Except.ok { algorithm := "SHA-256", value := sha256 bytes }
    else
      match body with
      | Except.error _ => Except.error ApiError.httpTransport
      | Except.ok BodyParse.jsonError => Except.error ApiError.jsonParse
      | Except.ok BodyParse.base64Error => Except.error ApiError.badBase64
      | Except.ok (BodyParse.parsed alg bytes) =>
        Except.ok { algorithm := alg, value := bytes }

/-- Semaphore permit events of one hash_download_url execution. -/
inductive PermitEvent where
  | acquireSmall
  | releaseSmall
  | acquireLarge
  | releaseLarge
deriving DecidableEq, Repr

/-- The permit event trace of one hash_download_url execution (api/mod.rs
lines 190-238). The small permit is acquired first (line 190). On the
fallback branch it is dropped explicitly (line 197) before the large permit
is acquired (lines 206-211); the large permit is dropped explicitly on
success (line 220) or by scope exit when the download errors out. On every
other branch the small permit is dropped after the body is read (line 228)
or by scope exit when an early return fires; no large permit is ever
acquired there. -/
def hash_download_url_permit_trace (probe : ProbeOutcome) : List PermitEvent :=
  match probe with
  | ProbeOutcome.sendError => [PermitEvent.acquireSmall, PermitEvent.releaseSmall]
  | ProbeOutcome.got status _ =>
    if status == 404 || status == 400 || status == 403 then
      [PermitEvent.acquireSmall, PermitEvent.releaseSmall,
       PermitEvent.acquireLarge, PermitEvent.releaseLarge]
    else
      [PermitEvent.acquireSmall, PermitEvent.releaseSmall]

/-- Whether hash_download_url takes the streaming fallback branch for this
probe outcome (api/mod.rs lines 193-196). -/
def probe_takes_fallback (probe : ProbeOutcome) : Bool :=
  match probe with
  | ProbeOutcome.sendError => false
  | ProbeOutcome.got status _ => status == 404 || status == 400 || status == 403

/-- A trace holds both permits after some step when an acquire of each class
outnumbers its releases at that point. -/
def holds_both (l : List PermitEvent) : Bool :=
  (l.count PermitEvent.releaseSmall < l.count PermitEvent.acquireSmall) &&
  (l.count PermitEvent.releaseLarge < l.count PermitEvent.acquireLarge)

/-- No point of the trace holds a small and a large permit simultaneously. -/
def never_holds_both (l : List PermitEvent) : Bool :=
  (List.range (l.length + 1)).all (fun n => !holds_both (l.take n))

/-- The first small-release event of the trace comes strictly before the
first large-acquire event (true also when no large acquire occurs). -/
def small_released_before_large : List PermitEvent → Bool
  | [] => true
  | PermitEvent.acquireLarge :: _ => false
  | PermitEvent.releaseSmall :: _ => true
  | _ :: rest => small_released_before_large rest

/-- Observable outcome of one sync_update_meta execution: whether
hash_download_url was invoked and which row, if any, was handed to
change_update_info. -/
structure SyncUpdateMetaResult where
  hashCalled : Bool
  written : Option CachedUpdate
deriving DecidableEq, Repr

/-- sync_update_meta (meta/sync.rs lines 137-165), given the resolved
download info, the cached row read by get_update, and the outcome the
hash_download_url call would produce. The function compares
cached_update.etag.as_deref() with download_info.etag.as_deref(), which is
equality of the optional strings; on equality it returns at once. Otherwise
it consults the hash oracle and, on success, writes back the cached row
with etag, file_name, download_url set from the download info and
hash_algorithm, hash both set from the hash result. -/
def sync_update_meta (info : RepoDownloadInfo) (cached : CachedUpdate)
    (hashOracle : Except ApiError RepoDownloadHash) :
    Except ApiError SyncUpdateMetaResult :=
  if cached.etag == info.etag then
    Except.ok { hashCalled := false, written := none }
  else
    match hashOracle with
    | Except.error e => Except.error e
    | Except.ok hashInfo =>
      Except.ok { hashCalled := true,
                  written := some { cached with
                    etag := info.etag,
                    file_name := info.file_name,
                    download_url := some info.url,
                    hash_algorithm := some hashInfo.algorithm,
                    hash := some hashInfo.value } }

/-- Apply the optional change_update_info write of a sync_update_meta
result to the updates table. -/
def apply_update_write (updates : List CachedUpdate) (w : Option CachedUpdate) :
    List CachedUpdate :=
  match w with
  | none => updates
  | some u => change_update_info updates u

/-- The updates table after a sync_update_meta execution: unchanged when the
task errors out or takes the fast path, rewritten via change_update_info
otherwise. -/
def sync_update_meta_table (updates : List CachedUpdate)
    (info : RepoDownloadInfo) (cached : CachedUpdate)
    (hashOracle : Except ApiError RepoDownloadHash) : List CachedUpdate :=
  match sync_update_meta info cached hashOracle with
  | Except.error _ => updates
  | Except.ok res => apply_update_write updates res.written

/-- sync_update_dependency_meta (meta/sync.rs lines 97-134), given the
fetched metadata: it upserts one row per reported dependency with
optional = false, then one row per reported optional dependency with
optional = true. It performs no other store operation. -/
def sync_update_dependency_meta (deps : List CachedUpdateDependency)
    (uid : Nat) (metadata : RepoUpdateMetadata) : List CachedUpdateDependency :=
  let afterRequired := metadata.dependencies.foldl
    (fun acc d => add_update_dependency acc
      { update_id := uid, dependency_xml_id := d, optional := false }) deps
  metadata.optional_dependencies.foldl
    (fun acc d => add_update_dependency acc
      { update_id := uid, dependency_xml_id := d, optional := true }) afterRequired

/-- State and dispatch log of one sync_plugin execution. -/
structure SyncPluginResult where
  versions : List CachedPluginVersion
  updates : List CachedUpdate
  depDispatches : List CachedPluginVersion
  metaDispatches : List Nat
deriving DecidableEq, Repr

/-- Loop body of the first loop of sync_plugin (meta/sync.rs lines 43-75):
for each remote version, add_update, add_plugin_version, dispatch
sync_update_dependency_meta, then mark_update_not_stale and, when that
returned true, dispatch sync_update_meta for the update id. -/
def sync_plugin_step (known : CachedPlugin) (acc : SyncPluginResult)
    (v : RepoUpdateVersion) : SyncPluginResult :=
  let cv : CachedPluginVersion :=
    { update_id := v.id, version := v.version, channel := v.channel,
      plugin_xml_id := known.xml_id }
  let updates1 := add_update acc.updates v.id
  let versions1 := add_plugin_version acc.versions cv
  let marked := mark_update_not_stale updates1 v.id
  { versions := versions1,
    updates := marked.1,
    depDispatches := acc.depDispatches ++ [cv],
    metaDispatches := acc.metaDispatches ++ (if marked.2 then [v.id] else []) }

/-- sync_plugin (meta/sync.rs lines 30-91), given the remote versions
fetched for the plugin's numeric id, the cached versions read for its
xml id, and the current versions and updates tables. After the first loop,
the second loop (lines 77-88) walks the cached versions and removes every
one whose update_id does not occur among the remote versions' ids. -/
def sync_plugin (known : CachedPlugin) (repoVersions : List RepoUpdateVersion)
    (cachedVersions : List CachedPluginVersion)
    (versionsTable : List CachedPluginVersion)
    (updatesTable : List CachedUpdate) : SyncPluginResult :=
  let afterAdd := repoVersions.foldl (sync_plugin_step known)
    { versions := versionsTable, updates := updatesTable,
      depDispatches := [], metaDispatches := [] }
  let finalVersions := cachedVersions.foldl
    (fun vs c =>
      if repoVersions.any (fun v => v.id == c.update_id) then vs
      else remove_plugin_version vs c.plugin_xml_id c.version)
    afterAdd.versions
  { afterAdd with versions := finalVersions }

/-- The store operations that touch the updates table during a run
(reconciliation engine plus the FK cascade of delete_plugin_by_xml_id). The
syncMetaWrite operation is sync_update_meta's interaction with the table:
read the row via get_update, then perform the conditional
change_update_info write. -/
inductive UpdatesOp where
  | addUpdate (uid : Nat)
  | markAllStale
  | markNotStale (uid : Nat)
  | syncMetaWrite (info : RepoDownloadInfo) (hashInfo : RepoDownloadHash) (uid : Nat)
  | cascadeDelete (uid : Nat)
deriving Repr

/-- Apply one updates-table operation. -/
def apply_updates_op (updates : List CachedUpdate) : UpdatesOp → List CachedUpdate
  | UpdatesOp.addUpdate uid => add_update updates uid
  | UpdatesOp.markAllStale => mark_all_updates_stale updates
  | UpdatesOp.markNotStale uid => (mark_update_not_stale updates uid).1
  | UpdatesOp.syncMetaWrite info hashInfo uid =>
    match get_update updates uid with
    | none => updates
    | some cached =>
      sync_update_meta_table updates info cached (Except.ok hashInfo)
  | UpdatesOp.cascadeDelete uid => updates.filter (fun r => !(r.id == uid))

/-- The updates table reached from the freshly created (empty) table by a
sequence of store operations. -/
def run_updates_ops (ops : List UpdatesOp) : List CachedUpdate :=
  ops.foldl apply_updates_op []

/-- The plugin-table invariant of the data model: whenever the hash column
is set, the hash_algorithm column is set as well. -/
def hash_algorithm_inv (updates : List CachedUpdate) : Prop :=
  ∀ r ∈ updates, r.hash.isSome = true → r.hash_algorithm.isSome = true

/-- Example plugin row used by concrete instantiations. -/
def pluginFoo : CachedPlugin :=
  { xml_id := "com.example.foo", numeric_id := 42 }

/-- Example cached version row whose update id 5 upstream no longer lists. -/
def cEx3 : CachedPluginVersion :=
  { version := "1.0", update_id := 5, channel := "", plugin_xml_id := "p" }

/-- Example remote listing carrying only update id 9. -/
def repoEx3 : List RepoUpdateVersion :=
  [{ id := 9, version := "3.0", channel := "" }]

/-- Example surviving version row after the removal pass. -/
def rEx3 : CachedPluginVersion :=
  { version := "3.0", update_id := 9, channel := "", plugin_xml_id := "p" }

/-- Example plugin used for the sync_plugin instantiations. -/
def pluginP : CachedPlugin :=
  { xml_id := "p", numeric_id := 1 }

/-- Example updates table holding the single unresolved update 5. -/
def updatesEx3 : List CachedUpdate :=
  [{ id := 5, stale := true, etag := none, file_name := none,
     download_url := none, hash_algorithm := none, hash := none }]

/-- Example operation sequence reaching a resolved update row. -/
def opsEx7 : List UpdatesOp :=
  [UpdatesOp.addUpdate 1,
   UpdatesOp.syncMetaWrite
     { url := "https://x", etag := some "abc", file_name := some "f.zip" }
     { algorithm := "SHA-256", value := [0] } 1]

/-- The resolved update row reached by opsEx7. -/
def rowEx7 : CachedUpdate :=
  { id := 1, stale := true, etag := some "abc", file_name := some "f.zip",
    download_url := some "https://x", hash_algorithm := some "SHA-256",
    hash := some [0] }

/-- Example command line with the no_sync flag set. -/
def argsNoSyncEx : IndexerArgs :=
  { database := "indexer.db", max_parallel_small_requests := 32,
    max_parallel_large_requests := 4, output_directory := "meta",
    no_sync := true, no_generate := false }

/-- Example pre-existing dependency row no longer reported upstream. -/
def depRowEx9 : CachedUpdateDependency :=
  { update_id := 7, dependency_xml_id := "old.dep", optional := true }

/-- Example freshly fetched dependency metadata not mentioning old.dep. -/
def mdEx9 : RepoUpdateMetadata :=
  { dependencies := ["com.intellij.modules.platform"],
    optional_dependencies := [] }

/-- Example download info carrying an etag. -/
def infoEx2 : RepoDownloadInfo :=
  { url := "u", etag := some "abc", file_name := none }

/-- Example cached update row carrying the matching etag. -/
def cachedEx2 : CachedUpdate :=
  { id := 1, stale := false, etag := some "abc", file_name := none,
    download_url := none, hash_algorithm := none, hash := none }

/-- Example download info with no etag. -/
def infoEx10 : RepoDownloadInfo :=
  { url := "u", etag := none, file_name := none }

/-- Example never-resolved cached update row, all download fields null. -/
def cachedEx10 : CachedUpdate :=
  { id := 1, stale := true, etag := none, file_name := none,
    download_url := none, hash_algorithm := none, hash := none }

/-! Theorems. -/

/-- Claim C1, code behavior: mark_update_not_stale returns true for a row
that is already not stale, so no stale-to-not-stale transition happened, and
one sync_plugin run over two remote versions sharing update id 2000
dispatches sync_update_meta twice for that id — the WHERE clause of the
UPDATE has no stale = TRUE condition, and the affected-row count includes
rows whose stale column was already FALSE. -/
theorem mark_update_not_stale_double_claim :
    (mark_update_not_stale
      [{ id := 2000, stale := false, etag := none, file_name := none,
         download_url := none, hash_algorithm := none, hash := none }] 2000).2
      = true ∧
    (sync_plugin pluginP
      [{ id := 2000, version := "1.0", channel := "" },
       { id := 2000, version := "2.0", channel := "" }]
      [] [] []).metaDispatches = [2000, 2000] :=
  ⟨rfl, rfl⟩

/-- Claim C2: when the cached etag and the freshly resolved etag are both
present and equal, sync_update_meta returns successfully without consulting
the hash oracle and with no write, leaving every updates table unchanged. -/
theorem sync_update_meta_etag_fast_path (info : RepoDownloadInfo)
    (cached : CachedUpdate) (oracle : Except ApiError RepoDownloadHash)
    (e : String) (h1 : cached.etag = some e) (h2 : info.etag = some e) :
    sync_update_meta info cached oracle
      = Except.ok { hashCalled := false, written := none } ∧
    ∀ updates : List CachedUpdate,
      sync_update_meta_table updates info cached oracle = updates := by
  have hmain : sync_update_meta info cached oracle
      = Except.ok { hashCalled := false, written := none } := by
    simp [sync_update_meta, h1, h2]
  refine ⟨hmain, fun updates => ?_⟩
  simp [sync_update_meta_table, hmain, apply_update_write]

/-- Claim C2, concrete instantiation of the fast path. -/
theorem sync_update_meta_etag_fast_path_witness :
    sync_update_meta infoEx2 cachedEx2 (Except.error ApiError.httpTransport)
      = Except.ok { hashCalled := false, written := none } ∧
    sync_update_meta_table updatesEx3 infoEx2 cachedEx2
      (Except.error ApiError.httpTransport) = updatesEx3 :=
  ⟨(sync_update_meta_etag_fast_path infoEx2 cachedEx2
      (Except.error ApiError.httpTransport) "abc" rfl rfl).1,
   (sync_update_meta_etag_fast_path infoEx2 cachedEx2
      (Except.error ApiError.httpTransport) "abc" rfl rfl).2 updatesEx3⟩

/-- Claim C3, counterexample: upstream still lists update id 5 but under the
version string 3.0 only; the cached row for version string 1.0 (absent from
the remote version list) survives sync_plugin, because the removal loop
compares update ids, not version strings. -/
theorem sync_plugin_version_string_removal_cex :
    cEx3 ∈ (sync_plugin pluginP
      [{ id := 5, version := "3.0", channel := "" }]
      [cEx3] [cEx3] updatesEx3).versions ∧
    "1.0" ∉ (([{ id := 5, version := "3.0", channel := "" }]
      : List RepoUpdateVersion).map RepoUpdateVersion.version) := by
  constructor
  · decide
  · decide

/-- Claim C8, code behavior: async_main performs the sync step for a command
line with no_sync set — the flag is parsed but never read, and
sync_plugin_metadata is called unconditionally. -/
theorem async_main_executes_sync_despite_flag :
    argsNoSyncEx.no_sync = true ∧
    MainAction.syncPluginMetadata ∈ async_main_actions argsNoSyncEx := by
  constructor
  · rfl
  · decide

/-- Claim C10: when the cached etag is absent and the freshly resolved etag
is also absent, sync_update_meta returns successfully without consulting the
hash oracle and with no write, leaving every updates table (and so every
null download column of the row) unchanged. -/
theorem sync_update_meta_absent_etags_noop (info : RepoDownloadInfo)
    (cached : CachedUpdate) (oracle : Except ApiError RepoDownloadHash)
    (h1 : cached.etag = none) (h2 : info.etag = none) :
    sync_update_meta info cached oracle
      = Except.ok { hashCalled := false, written := none } ∧
    ∀ updates : List CachedUpdate,
      sync_update_meta_table updates info cached oracle = updates := by
  have hmain : sync_update_meta info cached oracle
      = Except.ok { hashCalled := false, written := none } := by
    simp [sync_update_meta, h1, h2]
  refine ⟨hmain, fun updates => ?_⟩
  simp [sync_update_meta_table, hmain, apply_update_write]

/-- Claim C10, concrete instantiation of the no-etag fast path. -/
theorem sync_update_meta_absent_etags_noop_witness :
    sync_update_meta infoEx10 cachedEx10 (Except.error ApiError.httpTransport)
      = Except.ok { hashCalled := false, written := none } ∧
    sync_update_meta_table [cachedEx10] infoEx10 cachedEx10
      (Except.error ApiError.httpTransport) = [cachedEx10] :=
  ⟨(sync_update_meta_absent_etags_noop infoEx10 cachedEx10
      (Except.error ApiError.httpTransport) rfl rfl).1,
   (sync_update_meta_absent_etags_noop infoEx10 cachedEx10
      (Except.error ApiError.httpTransport) rfl rfl).2 [cachedEx10]⟩

/-- Claim C4, counterexample: a probe status of 500 — a non-success status
that is none of 400, 403, 404 — does not make hash_download_url return an
error: the status is never checked on that branch, so a parsable body
yields a successful result. -/
theorem hash_download_url_status_500_ok_cex :
    hash_download_url (fun b => b)
      (ProbeOutcome.got 500 (Except.ok (BodyParse.parsed "SHA-256" [1, 2, 3])))
      StreamOutcome.sendError
      = Except.ok { algorithm := "SHA-256", value := [1, 2, 3] } ∧
    400 ≤ 500 ∧ (500 == 404 || 500 == 400 || 500 == 403) = false :=
  ⟨rfl, by decide, rfl⟩

/-- Claim C4, amended: on probe status 400, 403 or 404 the function falls
back to streaming the artifact and returns SHA-256 of the streamed bytes
(when that GET succeeds with a success status); on every other probe status
the function parses the response body as hash JSON without checking the
status, succeeding exactly when the body parses to an algorithm and a
decodable base64 hash. -/
theorem hash_download_url_amended (sha256 : List Nat → List Nat)
    (status : Nat) (body : Except Unit BodyParse) (s : Nat)
    (bytes : List Nat) :
    ((status == 404 || status == 400 || status == 403) = true → s < 400 →
      hash_download_url sha256 (ProbeOutcome.got status body)
          (StreamOutcome.got s (Except.ok bytes))
        = Except.ok { algorithm := "SHA-256", value := sha256 bytes }) ∧
    ((status == 404 || status == 400 || status == 403) = false →
      ∀ (stream : StreamOutcome) (h : RepoDownloadHash),
        hash_download_url sha256 (ProbeOutcome.got status body) stream
            = Except.ok h
          ↔ body = Except.ok (BodyParse.parsed h.algorithm h.value)) := by
  constructor
  · intro hc hs
    have hns : ¬(400 ≤ s) := Nat.not_le.mpr hs
    simp [hash_download_url, hc, hns]
  · intro hc stream h
    rcases h with ⟨halg, hval⟩
    rcases body with _ | bp
    · simp [hash_download_url, hc]
    · rcases bp with _ | _ | ⟨alg, b⟩ <;>
        simp [hash_download_url, hc]

/-- Claim C4, concrete instantiations of both amended branches. -/
theorem hash_download_url_amended_witness :
    hash_download_url (fun b => b) (ProbeOutcome.got 404 (Except.error ()))
        (StreamOutcome.got 200 (Except.ok [5]))
      = Except.ok { algorithm := "SHA-256", value := [5] } ∧
    hash_download_url (fun b => b)
        (ProbeOutcome.got 500 (Except.ok (BodyParse.parsed "SHA-512" [9])))
        StreamOutcome.sendError
      = Except.ok { algorithm := "SHA-512", value := [9] } :=
  ⟨(hash_download_url_amended (fun b => b) 404 (Except.error ()) 200 [5]).1
      rfl (by decide),
   ((hash_download_url_amended (fun b => b) 500
        (Except.ok (BodyParse.parsed "SHA-512" [9])) 0 []).2 rfl
      StreamOutcome.sendError { algorithm := "SHA-512", value := [9] }).mpr rfl⟩

/-- Claim C5: no point of any hash_download_url execution holds a small and
a large permit simultaneously, and on every fallback execution the small
permit is released strictly before the large permit is acquired. -/
theorem hash_download_url_permit_discipline (probe : ProbeOutcome) :
    never_holds_both (hash_download_url_permit_trace probe) = true ∧
    (probe_takes_fallback probe = true →
      small_released_before_large (hash_download_url_permit_trace probe) = true ∧
      (hash_download_url_permit_trace probe).contains PermitEvent.acquireLarge
        = true) := by
  rcases probe with _ | ⟨status, body⟩
  · exact ⟨rfl, fun hfall => by simp [probe_takes_fallback] at hfall⟩
  · by_cases hc : (status == 404 || status == 400 || status == 403) = true
    · refine ⟨?_, fun _ => ⟨?_, ?_⟩⟩ <;>
        simp [hash_download_url_permit_trace, hc] <;> decide
    · rw [Bool.not_eq_true] at hc
      refine ⟨?_, fun hfall => ?_⟩
      · simp [hash_download_url_permit_trace, hc]; decide
      · rw [probe_takes_fallback, hc] at hfall
        cases hfall

/-- Claim C5, concrete instantiation on a 404 probe outcome. -/
theorem hash_download_url_permit_discipline_witness :
    never_holds_both
      (hash_download_url_permit_trace (ProbeOutcome.got 404 (Except.error ())))
      = true ∧
    (small_released_before_large
      (hash_download_url_permit_trace (ProbeOutcome.got 404 (Except.error ())))
      = true ∧
    (hash_download_url_permit_trace
      (ProbeOutcome.got 404 (Except.error ()))).contains PermitEvent.acquireLarge
      = true) :=
  ⟨(hash_download_url_permit_discipline (ProbeOutcome.got 404 (Except.error ()))).1,
   (hash_download_url_permit_discipline (ProbeOutcome.got 404 (Except.error ()))).2
     rfl⟩

/-- Claim C6, counterexample: calling add_plugin twice with the same xml_id
surfaces a uniqueness error on the second call — the INSERT carries no OR
IGNORE and no ON CONFLICT clause. -/
theorem add_plugin_duplicate_errors_cex :
    add_plugin [] pluginFoo = Except.ok [pluginFoo] ∧
    add_plugin [pluginFoo] pluginFoo
      = Except.error DbError.uniqueConstraintViolation :=
  ⟨rfl, rfl⟩

/-- Claim C6, amended: add_update is an idempotent insert-or-ignore on its
primary key, but add_plugin is a plain insert — a first call on a table
without the xml_id succeeds, and a repeated call with the same xml_id
surfaces a uniqueness error and leaves the single row from the first
call. -/
theorem add_plugin_plain_insert_add_update_idempotent
    (plugins : List CachedPlugin) (p : CachedPlugin)
    (h : plugins.any (fun r => r.xml_id == p.xml_id) = false) :
    add_plugin plugins p = Except.ok (plugins ++ [p]) ∧
    add_plugin (plugins ++ [p]) p
      = Except.error DbError.uniqueConstraintViolation ∧
    ∀ (updates : List CachedUpdate) (uid : Nat),
      add_update (add_update updates uid) uid = add_update updates uid := by
  refine ⟨by simp [add_plugin, h], ?_, ?_⟩
  · simp [add_plugin, h]
  · intro updates uid
    by_cases hex : updates.any (fun r => r.id == uid) = true
    · simp [add_update, hex]
    · rw [Bool.not_eq_true] at hex
      simp [add_update, hex, fresh_update_row]

/-- Claim C6, concrete instantiation of the amended statement. -/
theorem add_plugin_plain_insert_witness :
    add_plugin [] pluginFoo = Except.ok [pluginFoo] ∧
    add_plugin [pluginFoo] pluginFoo
      = Except.error DbError.uniqueConstraintViolation ∧
    add_update (add_update [] 7) 7 = add_update [] 7 := by
  obtain ⟨h1, h2, h3⟩ :=
    add_plugin_plain_insert_add_update_idempotent [] pluginFoo rfl
  exact ⟨h1, h2, h3 [] 7⟩

/-- Every single store operation on the updates table preserves the
hash-implies-algorithm invariant. -/
theorem apply_updates_op_preserves_inv (updates : List CachedUpdate)
    (op : UpdatesOp) (h : hash_algorithm_inv updates) :
    hash_algorithm_inv (apply_updates_op updates op) := by
  cases op with
  | addUpdate uid =>
    intro r hr hhash
    by_cases hex : updates.any (fun x => x.id == uid) = true
    · exact h r (by simpa [apply_updates_op, add_update, hex] using hr) hhash
    · rw [Bool.not_eq_true] at hex
      have hr' : r ∈ updates ∨ r = fresh_update_row uid := by
        simpa [apply_updates_op, add_update, hex] using hr
      rcases hr' with hmem | rfl
      · exact h r hmem hhash
      · cases hhash
  | markAllStale =>
    intro r hr hhash
    simp only [apply_updates_op, mark_all_updates_stale] at hr
    obtain ⟨r0, hr0, rfl⟩ := List.mem_map.mp hr
    exact h r0 hr0 hhash
  | markNotStale uid =>
    intro r hr hhash
    simp only [apply_updates_op, mark_update_not_stale] at hr
    obtain ⟨r0, hr0, rfl⟩ := List.mem_map.mp hr
    by_cases hid : (r0.id == uid) = true
    · rw [if_pos hid] at hhash ⊢
      exact h r0 hr0 hhash
    · rw [Bool.not_eq_true] at hid
      rw [hid] at hhash ⊢
      exact h r0 hr0 hhash
  | syncMetaWrite info hashInfo uid =>
    intro r hr hhash
    simp only [apply_updates_op] at hr
    rcases hfind : get_update updates uid with _ | cached
    · rw [hfind] at hr
      exact h r hr hhash
    · rw [hfind] at hr
      simp only [sync_update_meta_table, sync_update_meta] at hr
      by_cases hetag : (cached.etag == info.etag) = true
      · rw [if_pos hetag] at hr
        exact h r (by simpa [apply_update_write] using hr) hhash
      · rw [Bool.not_eq_true] at hetag
        rw [hetag] at hr
        simp only [apply_update_write, change_update_info] at hr
        obtain ⟨r0, hr0, rfl⟩ := List.mem_map.mp hr
        by_cases hid : (r0.id == cached.id) = true
        · rw [if_pos hid]
          rfl
        · rw [Bool.not_eq_true] at hid
          rw [hid] at hhash ⊢
          exact h r0 hr0 hhash
  | cascadeDelete uid =>
    intro r hr hhash
    simp only [apply_updates_op] at hr
    exact h r (List.mem_filter.mp hr).1 hhash

/-- Claim C7: every updates table reachable from the freshly created table
by the store operations of a run satisfies the invariant that a non-null
hash column comes with a non-null hash_algorithm column — add_update
inserts both as null and the sync_update_meta write sets both together. -/
theorem updates_hash_algorithm_invariant (ops : List UpdatesOp) :
    hash_algorithm_inv (run_updates_ops ops) := by
  suffices hgen : ∀ init : List CachedUpdate, hash_algorithm_inv init →
      hash_algorithm_inv (ops.foldl apply_updates_op init) from
    hgen [] (fun r hr => absurd hr (List.not_mem_nil r))
  induction ops with
  | nil => exact fun init h => h
  | cons op rest ih =>
    exact fun init h => ih _ (apply_updates_op_preserves_inv init op h)

/-- Claim C7, concrete instantiation: the row reached by adding update 1 and
resolving it carries both a hash and a hash algorithm. -/
theorem updates_hash_algorithm_invariant_witness :
    rowEx7 ∈ run_updates_ops opsEx7 ∧ rowEx7.hash.isSome = true ∧
    rowEx7.hash_algorithm.isSome = true :=
  ⟨by decide, rfl,
   updates_hash_algorithm_invariant opsEx7 rowEx7 (by decide) rfl⟩

/-- An upsert of a dependency row with a different key leaves a pre-existing
row untouched and in place. -/
theorem mem_add_update_dependency_of_ne (deps : List CachedUpdateDependency)
    (d r : CachedUpdateDependency) (hmem : r ∈ deps)
    (hk : (r.update_id == d.update_id &&
      r.dependency_xml_id == d.dependency_xml_id) = false) :
    r ∈ add_update_dependency deps d := by
  unfold add_update_dependency
  split
  · exact List.mem_map.mpr ⟨r, hmem, by simp [hk]⟩
  · exact List.mem_append_left _ hmem

/-- An upsert never deletes: every key present before is present after. -/
theorem key_mem_add_update_dependency (deps : List CachedUpdateDependency)
    (d r : CachedUpdateDependency) (hmem : r ∈ deps) :
    ∃ r' ∈ add_update_dependency deps d,
      r'.update_id = r.update_id ∧
      r'.dependency_xml_id = r.dependency_xml_id := by
  unfold add_update_dependency
  split
  · refine ⟨if (r.update_id == d.update_id &&
        r.dependency_xml_id == d.dependency_xml_id) = true then
        { r with optional := d.optional } else r,
      List.mem_map.mpr ⟨r, hmem, by split <;> simp_all⟩, ?_⟩
    split <;> exact ⟨rfl, rfl⟩
  · exact ⟨r, List.mem_append_left _ hmem, rfl, rfl⟩

/-- Folding dependency upserts for one update over a list of xml ids leaves
every row untouched whose update id differs or whose dependency xml id is
not in the list. -/
theorem mem_fold_add_deps (l : List String) (uid : Nat) (opt : Bool)
    (deps : List CachedUpdateDependency) (r : CachedUpdateDependency)
    (hmem : r ∈ deps) (h : r.update_id ≠ uid ∨ r.dependency_xml_id ∉ l) :
    r ∈ l.foldl (fun acc d => add_update_dependency acc
      { update_id := uid, dependency_xml_id := d, optional := opt }) deps := by
  induction l generalizing deps with
  | nil => exact hmem
  | cons d rest ih =>
    simp only [List.foldl_cons]
    refine ih _ (mem_add_update_dependency_of_ne _ _ _ hmem ?_) ?_
    · rcases h with h | h
      · simp [h]
      · have hd : r.dependency_xml_id ≠ d :=
          fun he => h (by rw [he]; exact List.mem_cons_self d rest)
        simp [hd]
    · rcases h with h | h
      · exact Or.inl h
      · exact Or.inr (fun hr => h (List.mem_cons_of_mem d hr))

/-- Folding dependency upserts never deletes a key. -/
theorem key_mem_fold_add_deps (l : List String) (uid : Nat) (opt : Bool)
    (deps : List CachedUpdateDependency) (r : CachedUpdateDependency)
    (hmem : r ∈ deps) :
    ∃ r' ∈ l.foldl (fun acc d => add_update_dependency acc
        { update_id := uid, dependency_xml_id := d, optional := opt }) deps,
      r'.update_id = r.update_id ∧
      r'.dependency_xml_id = r.dependency_xml_id := by
  induction l generalizing deps r with
  | nil => exact ⟨r, hmem, rfl, rfl⟩
  | cons d rest ih =>
    obtain ⟨r1, hr1, hu1, hd1⟩ := key_mem_add_update_dependency deps
      { update_id := uid, dependency_xml_id := d, optional := opt } r hmem
    obtain ⟨r2, hr2, hu2, hd2⟩ := ih _ r1 hr1
    exact ⟨r2, by simpa using hr2, hu2.trans hu1, hd2.trans hd1⟩

/-- Claim C9: sync_update_dependency_meta only inserts or updates rows — no
key ever disappears from the update_dependencies table, and every
pre-existing row of the update whose dependency xml id is not among the
freshly fetched dependencies or optional dependencies (or that belongs to a
different update) is unchanged after the task completes. -/
theorem sync_update_dependency_meta_frame (deps : List CachedUpdateDependency)
    (uid : Nat) (md : RepoUpdateMetadata) (r : CachedUpdateDependency)
    (hmem : r ∈ deps) :
    (∃ r' ∈ sync_update_dependency_meta deps uid md,
        r'.update_id = r.update_id ∧
        r'.dependency_xml_id = r.dependency_xml_id) ∧
    ((r.update_id ≠ uid ∨ (r.dependency_xml_id ∉ md.dependencies ∧
        r.dependency_xml_id ∉ md.optional_dependencies)) →
      r ∈ sync_update_dependency_meta deps uid md) := by
  constructor
  · obtain ⟨r1, hr1, hu1, hd1⟩ :=
      key_mem_fold_add_deps md.dependencies uid false deps r hmem
    obtain ⟨r2, hr2, hu2, hd2⟩ :=
      key_mem_fold_add_deps md.optional_dependencies uid true _ r1 hr1
    exact ⟨r2, hr2, hu2.trans hu1, hd2.trans hd1⟩
  · intro h
    have h1 : r.update_id ≠ uid ∨ r.dependency_xml_id ∉ md.dependencies := by
      rcases h with h | h
      · exact Or.inl h
      · exact Or.inr h.1
    have h2 : r.update_id ≠ uid ∨
        r.dependency_xml_id ∉ md.optional_dependencies := by
      rcases h with h | h
      · exact Or.inl h
      · exact Or.inr h.2
    exact mem_fold_add_deps md.optional_dependencies uid true _ r
      (mem_fold_add_deps md.dependencies uid false deps r hmem h1) h2

/-- Claim C9, concrete instantiation: a stale optional dependency row for
update 7 survives a fresh fetch that no longer reports it. -/
theorem sync_update_dependency_meta_frame_witness :
    depRowEx9 ∈ sync_update_dependency_meta [depRowEx9] 7 mdEx9 :=
  (sync_update_dependency_meta_frame [depRowEx9] 7 mdEx9 depRowEx9
      (by decide)).2 (Or.inr ⟨by decide, by decide⟩)

/-- The removal loop of sync_plugin only filters: every row of its result
was already in the table it started from. -/
theorem mem_of_mem_removal_fold (repoVersions : List RepoUpdateVersion)
    (l : List CachedPluginVersion) (vs : List CachedPluginVersion)
    (r : CachedPluginVersion)
    (h : r ∈ l.foldl (fun acc c =>
        if repoVersions.any (fun v => v.id == c.update_id) then acc
        else remove_plugin_version acc c.plugin_xml_id c.version) vs) :
    r ∈ vs := by
  induction l generalizing vs with
  | nil => exact h
  | cons c rest ih =>
    simp only [List.foldl_cons] at h
    have h2 := ih _ h
    split at h2
    · exact h2
    · simp only [remove_plugin_version, List.mem_filter] at h2
      exact h2.1

/-- remove_plugin_version removes every row bearing the given key. -/
theorem key_not_mem_remove_plugin_version (vs : List CachedPluginVersion)
    (x y : String) (r : CachedPluginVersion)
    (h : r ∈ remove_plugin_version vs x y) :
    ¬(r.plugin_xml_id = x ∧ r.version = y) := by
  simp only [remove_plugin_version, List.mem_filter] at h
  intro hk
  have hb := h.2
  rw [hk.1, hk.2] at hb
  simp at hb

/-- Claim C3, amended: after sync_plugin completes, every previously cached
version row whose update_id is absent from the remote version list's update
ids has been removed from the versions table — the removal criterion of the
code is the update id, not the version string. -/
theorem sync_plugin_removes_unlisted_update_ids
    (known : CachedPlugin) (repoVersions : List RepoUpdateVersion)
    (cachedVersions : List CachedPluginVersion)
    (versionsTable : List CachedPluginVersion)
    (updatesTable : List CachedUpdate)
    (c : CachedPluginVersion) (hmem : c ∈ cachedVersions)
    (hunlisted : ∀ v ∈ repoVersions, v.id ≠ c.update_id) :
    ∀ r ∈ (sync_plugin known repoVersions cachedVersions versionsTable
        updatesTable).versions,
      ¬(r.plugin_xml_id = c.plugin_xml_id ∧ r.version = c.version) := by
  intro r hr
  obtain ⟨l1, l2, rfl⟩ := List.append_of_mem hmem
  simp only [sync_plugin] at hr
  rw [List.foldl_append, List.foldl_cons] at hr
  have hany : (repoVersions.any fun v => v.id == c.update_id) = false := by
    rw [List.any_eq_false]
    intro v hv
    simp [hunlisted v hv]
  rw [hany] at hr
  simp only [Bool.false_eq_true, if_false] at hr
  exact key_not_mem_remove_plugin_version _ _ _ r
    (mem_of_mem_removal_fold repoVersions l2 _ r hr)

/-- Claim C3, concrete instantiation of the amended statement: the cached
row for version 1.0 of update 5 is removed once upstream lists only
update 9. -/
theorem sync_plugin_removes_unlisted_update_ids_witness :
    cEx3 ∈ [cEx3] ∧
    ¬(rEx3.plugin_xml_id = cEx3.plugin_xml_id ∧ rEx3.version = cEx3.version) :=
  ⟨by decide,
   sync_plugin_removes_unlisted_update_ids pluginP repoEx3 [cEx3] [cEx3]
     updatesEx3 cEx3 (by decide) (by decide) rEx3 (by decide)⟩

end JbRepoIndexer
